import Mathlib

/-!
Shallow embedding of the automata repository core: the automation
scheduler with its skip-check pipeline and global rate limiter, the tool
registry, and the agent execution controller.  Timestamps are modelled as
`Int` milliseconds, JavaScript optional fields as `Option`, rejected
promises and thrown errors as `Except String`.  JavaScript truthiness of
`x || d` defaults (where `0`, `""`, `undefined` are falsy) is made
explicit through the `js*` helper functions below.
-/

namespace Automata

/-- JS `s || d` for a string `s` (the empty string is falsy). -/
def jsStrOr (s : String) (d : String) : String :=
  if s = "" then d else s

/-- JS `x || d` for an optional string `x` (`undefined` and `""` are falsy). -/
def jsOptStrOr (o : Option String) (d : String) : String :=
  match o with
  | some s => jsStrOr s d
  | none => d

/-- JS `x || d` for an optional number `x` (`undefined` and `0` are falsy). -/
def jsNumOr (o : Option Nat) (d : Nat) : Nat :=
  match o with
  | some n => if n = 0 then d else n
  | none => d

/-- JS truthiness of an optional numeric field (`undefined` and `0` are falsy). -/
def intTruthy (o : Option Int) : Bool :=
  o.getD 0 != 0

/-- JS truthiness of an optional string field (`undefined` and `""` are falsy). -/
def strTruthy (o : Option String) : Bool :=
  o.getD "" != ""

/-- JS `x || Infinity` for an optional numeric cap: `undefined` and `0` are
falsy and yield `Infinity`, encoded as `none`. -/
def jsOrInfinity (o : Option Nat) : Option Nat :=
  match o with
  | some m => if m = 0 then none else some m
  | none => none

/-! ## Data model: `Automation` and `SkipResult` (src/core/types/automation.ts) -/

/-- `Automation` from src/core/types/automation.ts.  Timestamps are `Int`
milliseconds; optional fields are `Option`. -/
structure Automation where
  name : String
  projectId : String
  model : Option String := none
  frequency : String
  enabled : Bool
  prompt : String
  lastRun : Option Int := none
  executions : Option Nat := none
  updatedAt : Option Int := none
  startDate : Int
  maxExecutions : Option Nat := none
deriving Repr, DecidableEq

/-- The machine-readable skip reason kinds of `SkipResult.reasonType`. -/
inductive SkipReasonType where
  | not_ready
  | run_recently
  | max_executions
  | already_run
  | rate_limited
deriving Repr, DecidableEq

/-- `SkipResult` from src/core/types/automation.ts. -/
structure SkipResult where
  shouldSkip : Bool
  reason : Option String := none
  reasonType : Option SkipReasonType := none
deriving Repr, DecidableEq

/-! ## Skip checkers (src/core/automations/skipCheckers) -/

/-- `checkNotReady` from skipCheckers/notReady.ts: skip while
`now < automation.startDate`. -/
def checkNotReady (automation : Automation) (automationId : String) (now : Int) :
    SkipResult :=
  if now < automation.startDate then
    { shouldSkip := true
      reason := some ("Automation " ++ automation.name ++ " (" ++ automationId ++
        ") is not ready to run, skipping")
      reasonType := some SkipReasonType.not_ready }
  else
    { shouldSkip := false }

/-- 24 hours in milliseconds. -/
def oneDay : Int := 24 * 60 * 60 * 1000

/-- `getTimeThreshold` from skipCheckers/runRecently.ts: subtract the
interval implied by the frequency token from `now`; unknown tokens fall
back to the 24-hour interval. -/
def getTimeThreshold (frequency : String) (now : Int) : Int :=
  match frequency with
  | "every_5_minutes" => now - 5 * 60 * 1000
  | "every_10_minutes" => now - 10 * 60 * 1000
  | "every_15_minutes" => now - 15 * 60 * 1000
  | "every_30_minutes" => now - 30 * 60 * 1000
  | "every_1_hour" => now - 60 * 60 * 1000
  | "every_3_hours" => now - 3 * 60 * 60 * 1000
  | "every_6_hours" => now - 6 * 60 * 60 * 1000
  | "every_12_hours" => now - 12 * 60 * 60 * 1000
  | "daily" => now - oneDay
  | "every_2_days" => now - 2 * oneDay
  | "every_4_days" => now - 4 * oneDay
  | "weekly" => now - 7 * oneDay
  | "every_2_weeks" => now - 14 * oneDay
  | "monthly" => now - 30 * oneDay
  | _ => now - oneDay

/-- `checkRunRecently` from skipCheckers/runRecently.ts: skip when the
frequency is not `once` and `lastRun - leeway` is at or past the
threshold, with a fixed 1-minute leeway and `lastRun || 0`. -/
def checkRunRecently (automation : Automation) (automationId : String) (now : Int) :
    SkipResult :=
  let timeThreshold := getTimeThreshold automation.frequency now
  let lastRun := automation.lastRun.getD 0
  let leeway : Int := 1 * 60 * 1000
  if automation.frequency ≠ "once" ∧ timeThreshold ≤ lastRun - leeway then
    { shouldSkip := true
      reason := some ("Automation " ++ automation.name ++ " (" ++ automationId ++
        ") was run recently, skipping")
      reasonType := some SkipReasonType.run_recently }
  else
    { shouldSkip := false }

/-- The comparison `(automation.executions || 0) >= (automation.maxExecutions || Infinity)`
from skipCheckers/maxExecutions.ts; a finite value never reaches `Infinity`. -/
def hasReachedMaxExecutions (automation : Automation) : Bool :=
  match jsOrInfinity automation.maxExecutions with
  | none => false
  | some m => decide (m ≤ automation.executions.getD 0)

/-- `checkMaxExecutions` from skipCheckers/maxExecutions.ts. -/
def checkMaxExecutions (automation : Automation) (automationId : String) :
    SkipResult :=
  if hasReachedMaxExecutions automation then
    { shouldSkip := true
      reason := some ("Automation " ++ automation.name ++ " (" ++ automationId ++
        ") has reached the maximum number of executions, skipping")
      reasonType := some SkipReasonType.max_executions }
  else
    { shouldSkip := false }

/-- `checkAlreadyRun` from skipCheckers/alreadyRun.ts: a one-time automation
with a truthy `lastRun` is skipped. -/
def checkAlreadyRun (automation : Automation) (automationId : String) : SkipResult :=
  if automation.frequency = "once" ∧ intTruthy automation.lastRun then
    { shouldSkip := true
      reason := some ("Automation " ++ automation.name ++ " (" ++ automationId ++
        ") has already run, skipping")
      reasonType := some SkipReasonType.already_run }
  else
    { shouldSkip := false }

/-! ## Global rate limiter (src/core/automations/skipCheckers/rateLimited.ts) -/

/-- Global cap for small models (per scheduler tick). -/
def MAX_AGENTS_SMALL_MODEL : Nat := 2

/-- Global cap for large models (per scheduler tick). -/
def MAX_AGENTS_LARGE_MODEL : Nat := 5

/-- The fixed small-model set `SMALL_MODELS`. -/
def SMALL_MODELS : List String := ["gpt-5-mini"]

/-- The coarse model class used for rate limiting. -/
inductive ModelType where
  | small
  | large
deriving Repr, DecidableEq

/-- String form of a model class, as used in reason messages. -/
def ModelType.asString : ModelType → String
  | ModelType.small => "small"
  | ModelType.large => "large"

/-- `getMaxAgentsForModel` from rateLimited.ts: `model && SMALL_MODELS.has(model)`. -/
def getMaxAgentsForModel (model : Option String) : Nat :=
  if strTruthy model ∧ model.getD "" ∈ SMALL_MODELS then
    MAX_AGENTS_SMALL_MODEL
  else
    MAX_AGENTS_LARGE_MODEL

/-- `getModelType` from rateLimited.ts. -/
def getModelType (model : Option String) : ModelType :=
  if strTruthy model ∧ model.getD "" ∈ SMALL_MODELS then
    ModelType.small
  else
    ModelType.large

/-- The per-tick counter map `agentsCreatedByModelType` keyed by model class;
absent keys read as `0` through `|| 0`. -/
structure AgentsCreatedByModelType where
  small : Nat := 0
  large : Nat := 0
deriving Repr, DecidableEq

/-- Read `agentsCreatedByModelType[modelType] || 0`. -/
def AgentsCreatedByModelType.countFor (c : AgentsCreatedByModelType) :
    ModelType → Nat
  | ModelType.small => c.small
  | ModelType.large => c.large

/-- Write `agentsCreatedByModelType[modelType] = (… || 0) + 1`. -/
def AgentsCreatedByModelType.incrFor (c : AgentsCreatedByModelType) :
    ModelType → AgentsCreatedByModelType
  | ModelType.small => { c with small := c.small + 1 }
  | ModelType.large => { c with large := c.large + 1 }

/-- `checkRateLimited` from rateLimited.ts: the job model defaulted through
`automation.model || 'gpt-5.2'` is classified, and the automation is
skipped when the per-tick counter for that class has reached the cap. -/
def checkRateLimited (automation : Automation) (automationId : String)
    (agentsCreatedByModelType : AgentsCreatedByModelType) : SkipResult :=
  let model := jsOptStrOr automation.model "gpt-5.2"
  let modelType := getModelType (some model)
  let maxAgents := getMaxAgentsForModel (some model)
  let agentCount := agentsCreatedByModelType.countFor modelType
  if maxAgents ≤ agentCount then
    { shouldSkip := true
      reason := some ("Automation " ++ automation.name ++ " (" ++ automationId ++
        ") rate limited - " ++ toString agentCount ++ "/" ++ toString maxAgents ++
        " " ++ modelType.asString ++ " model agents created this minute (global limit)")
      reasonType := some SkipReasonType.rate_limited }
  else
    { shouldSkip := false }

/-- `checkShouldSkipAutomation` from src/core/automations/executor.ts:
runs the five checkers in priority order and exits early on the first
skip condition found. -/
def checkShouldSkipAutomation (automation : Automation) (automationId : String)
    (now : Int) (agentsCreatedByModelType : AgentsCreatedByModelType) : SkipResult :=
  let r1 := checkNotReady automation automationId now
  if r1.shouldSkip then r1 else
  let r2 := checkRunRecently automation automationId now
  if r2.shouldSkip then r2 else
  let r3 := checkMaxExecutions automation automationId
  if r3.shouldSkip then r3 else
  let r4 := checkAlreadyRun automation automationId
  if r4.shouldSkip then r4 else
  let r5 := checkRateLimited automation automationId agentsCreatedByModelType
  if r5.shouldSkip then r5 else
  { shouldSkip := false }

/-! ## Automation scheduler (src/core/automations/executor.ts)

The handler loads all enabled automations and, per document, either emits
a skip observation or stages an agent creation plus a job bookkeeping
update, incrementing the per-tick rate counter.  The Firestore batch is
modelled as the staged lists in `TickState`; the atomic commit and the
tracking callbacks are I/O and carry no further logic. -/

/-- `ContextItem` from src/core/types/context.ts. -/
structure ContextItem where
  id : String
  type : String
  name : String
deriving Repr, DecidableEq

/-- The advertised tool descriptor staged on a new agent:
`{type:'function', name, description, parameters}` built from
`toolRegistry.getAvailable()` in executor.ts. -/
structure ToolItem where
  type : String
  name : String
  description : Option String := none
deriving Repr, DecidableEq

/-- `HistoryItem` from src/core/types/agent.ts: one loosely-typed history
entry with a required `type` tag and optional payload fields. -/
structure HistoryItem where
  type : String
  role : Option String := none
  content : Option String := none
  name : Option String := none
  arguments : Option String := none
  call_id : Option String := none
  output : Option String := none
  status : Option String := none
deriving Repr, DecidableEq

/-- The `agentData` document staged by the scheduler for each eligible
automation (executor.ts lines 172-190). -/
structure AgentData where
  projectId : String
  model : String
  tools : List ToolItem
  context : List ContextItem
  history : List HistoryItem
  status : String
  name : String
  createdAt : Int
  updatedAt : Int
  automationId : String
  type : String
deriving Repr, DecidableEq

/-- The job bookkeeping update staged by the scheduler
(executor.ts lines 197-202). -/
structure AutomationUpdate where
  executions : Nat
  enabled : Bool
  lastRun : Int
  updatedAt : Int
deriving Repr, DecidableEq

/-- `shouldKeepAutomationEnabled` (executor.ts line 195):
`automation.frequency !== 'once' && (automation.executions || 0) < (automation.maxExecutions || Infinity)`.
Note the comparison uses the pre-increment execution count. -/
def shouldKeepAutomationEnabled (automation : Automation) : Bool :=
  (automation.frequency != "once") &&
    (match jsOrInfinity automation.maxExecutions with
     | none => true
     | some m => decide (automation.executions.getD 0 < m))

/-- The staged `batch.update` payload for an executed automation. -/
def automationUpdate (automation : Automation) (now : Int) : AutomationUpdate :=
  { executions := automation.executions.getD 0 + 1
    enabled := shouldKeepAutomationEnabled automation
    lastRun := now
    updatedAt := now }

/-- Scheduler configuration distilled from `AutomationExecutorConfig`:
the context builder, the registry snapshot, and the two defaulted knobs
`agentNamePrefix` and `defaultModel` (the latter renamed here). -/
structure ExecutorConfig where
  buildContext : Automation → List ContextItem
  availableTools : List ToolItem
  agentNameLead : String := "⚡️ "
  defaultModel : String := "gpt-5.2"

/-- The staged effects of one scheduler tick: the Firestore batch contents
(`creations` and `updates`), the emitted skip observations, the count of
created agents and the per-tick rate counter. -/
structure TickState where
  creations : List AgentData := []
  updates : List (String × AutomationUpdate) := []
  skips : List (String × SkipResult) := []
  agentsCreated : Nat := 0
  agentsCreatedByModelType : AgentsCreatedByModelType := {}
deriving Repr

/-- The loop body of `createAutomationExecutorHandler` (executor.ts lines
150-217) for one automation document `(id, data)`. -/
def tickStep (cfg : ExecutorConfig) (now : Int) (st : TickState)
    (doc : String × Automation) : TickState :=
  let automationId := doc.1
  let automation := doc.2
  let skipResult :=
    checkShouldSkipAutomation automation automationId now st.agentsCreatedByModelType
  if skipResult.shouldSkip then
    { st with skips := st.skips ++ [(automationId, skipResult)] }
  else
    let model := jsOptStrOr automation.model cfg.defaultModel
    let modelType := getModelType (some model)
    let context := cfg.buildContext automation
    let promptMessage : HistoryItem :=
      { type := "message"
        role := some "user"
        content := some ("<prompt>" ++ automation.prompt ++
          "</prompt><automation_id>" ++ automationId ++ "</automation_id>") }
    let agentData : AgentData :=
      { projectId := automation.projectId
        model := model
        tools := cfg.availableTools
        context := context
        history := [promptMessage]
        status := "running"
        name := cfg.agentNameLead ++ automation.name
        createdAt := now
        updatedAt := now
        automationId := automationId
        type := "automation" }
    { st with
        creations := st.creations ++ [agentData]
        updates := st.updates ++ [(automationId, automationUpdate automation now)]
        agentsCreated := st.agentsCreated + 1
        agentsCreatedByModelType := st.agentsCreatedByModelType.incrFor modelType }

/-- One scheduler tick over the loaded automation documents, starting from
an empty batch and an empty per-tick rate counter. -/
def runAutomationTick (cfg : ExecutorConfig) (docs : List (String × Automation))
    (now : Int) : TickState :=
  docs.foldl (tickStep cfg now) {}

/-! ## Tool registry (src/core/tools/registry.ts)

The registry is a JS `Map<string, ToolDefinition>`; a `Map` iterates in
insertion order and `set` on an absent key appends, so the state is an
association list with unique keys.  Thrown errors become `Except.error`
carrying the message; `execute` guards the executor call and converts a
thrown error into a structured failure result. -/

/-- A JSON value, standing in for the `unknown` data JavaScript passes
through `JSON.parse` and `JSON.stringify`. -/
inductive JsonVal where
  | null
  | bool (b : Bool)
  | num (n : Int)
  | str (s : String)
  | arr (items : List JsonVal)
  | obj (fields : List (String × JsonVal))

/-- The `agent` part of the `ExecutionContext` handed to tool executors. -/
structure ExecContextAgent where
  id : Option String := none
  projectId : String
  model : String
deriving Repr, DecidableEq

/-- `ExecutionContext` from src/core/tools/types.ts, restricted to the
fields the core reads. -/
structure ExecutionContext where
  agent : Option ExecContextAgent := none
deriving Repr, DecidableEq

/-- `ToolResult` from src/core/tools/types.ts. -/
structure ToolResult where
  success : Bool
  output : String
  error : Option String := none
deriving Repr, DecidableEq

/-- `ToolDefinition` from src/core/tools/types.ts; the executor is an
externally supplied, possibly failing function (a rejected promise or a
thrown error is `Except.error` with the message). -/
structure ToolDefinition where
  type : String := "function"
  name : String
  description : String := ""
  parameters : JsonVal := JsonVal.obj []
  strict : Option Bool := none
  executor : JsonVal → ExecutionContext → Except String ToolResult

/-- The registry state: the `Map` entries in insertion order. -/
abbrev ToolRegistry : Type := List (String × ToolDefinition)

namespace ToolRegistry

/-- The empty registry. -/
def empty : ToolRegistry := ([] : List (String × ToolDefinition))

/-- `has(name)`: membership in the map. -/
def has (reg : ToolRegistry) (name : String) : Bool :=
  reg.any (fun p => p.1 == name)

/-- `getTool(name)`: lookup, `undefined` as `none`. -/
def getTool (reg : ToolRegistry) (name : String) : Option ToolDefinition :=
  (reg.find? (fun p => p.1 == name)).map Prod.snd

/-- `register(tool)`: throws when the name is present, otherwise inserts
(`Map.set` of an absent key appends in iteration order). -/
def register (reg : ToolRegistry) (tool : ToolDefinition) : Except String ToolRegistry :=
  if has reg tool.name then
    Except.error ("Tool \"" ++ tool.name ++ "\" is already registered")
  else
    Except.ok (reg ++ [(tool.name, tool)])

/-- `unregister(name)`: `Map.delete`, a no-op when absent. -/
def unregister (reg : ToolRegistry) (name : String) : ToolRegistry :=
  reg.filter (fun p => p.1 != name)

/-- `execute(name, args, context)`: throws `not found` for an absent tool;
otherwise invokes the executor inside a guard that converts a thrown
error into `{success:false, output:'', error:<message>}`. -/
def execute (reg : ToolRegistry) (name : String) (args : JsonVal)
    (context : ExecutionContext) : Except String ToolResult :=
  match getTool reg name with
  | none => Except.error ("Tool \"" ++ name ++ "\" not found")
  | some tool =>
    match tool.executor args context with
    | Except.ok result => Except.ok result
    | Except.error e =>
      Except.ok { success := false, output := "", error := some e }

/-- `getAvailable()`: all registered definitions in insertion order. -/
def getAvailable (reg : ToolRegistry) : List ToolDefinition :=
  reg.map Prod.snd

/-- `size`: number of registered tools. -/
def size (reg : ToolRegistry) : Nat :=
  reg.length

end ToolRegistry

/-! ## Agent execution controller (src/core/engine)

`processAgentController` is the single-step transition function; the
`running` and `awaiting_tool` status handlers live in
src/core/engine/statuses.  External collaborators are modelled as fields
of a closed `ControllerOptions` record: the model provider call and the
registry `execute` return `Except String`, and the JS builtins
`JSON.parse` / `JSON.stringify` are the `parseJson` / `stringifyJson`
fields (with `parseJson` failing exactly where `JSON.parse` throws). -/

/-- `CloudAgent` from src/core/types/agent.ts, restricted to the fields
the controller reads. -/
structure CloudAgent where
  id : Option String := none
  projectId : String
  model : String
  tools : List ToolItem := []
  context : List ContextItem := []
  history : List HistoryItem := []
  status : Option String := none
  name : Option String := none
deriving Repr, DecidableEq

/-- Token usage reported by the model provider. -/
structure Usage where
  input_tokens : Nat
  output_tokens : Nat
deriving Repr, DecidableEq

/-- The `output` part of an `LLMResponse`. -/
structure LLMOutput where
  type : String
  name : Option String := none
  arguments : Option String := none
  call_id : Option String := none
  content : Option String := none
  role : Option String := none
deriving Repr, DecidableEq

/-- `LLMResponse` from src/core/engine/types.ts. -/
structure LLMResponse where
  output : LLMOutput
  history : List HistoryItem
  usage : Option Usage := none
deriving Repr, DecidableEq

/-- `LLMCallParams` from src/core/engine/types.ts. -/
structure LLMCallParams where
  projectId : String
  model : String
  history : List HistoryItem
  tools : List ToolDefinition
  agentId : Option String := none

/-- `AgentProcessResult` from src/core/engine/types.ts. -/
structure AgentProcessResult where
  history : List HistoryItem
  status : String
  error : Option String := none
  contextTokens : Option Nat := none
deriving Repr, DecidableEq

/-- `ControllerOptions` from src/core/engine/types.ts as a closed record:
the tool registry, the model provider, the optional database provider
(rulebook loader), the optional default model, the system prompt builder,
the HOTL tool name set, the pause threshold, and the JSON builtins. -/
structure ControllerOptions where
  toolRegistry : ToolRegistry := ToolRegistry.empty
  llmCall : LLMCallParams → Except String LLMResponse
  databaseProvider : Option (String → Except String (List String)) := none
  defaultModel : Option String := none
  buildSystemPrompt : CloudAgent → List String → String := fun _ _ => ""
  hotlTools : List String := []
  messagePauseThreshold : Option Nat := none
  parseJson : String → Except String JsonVal
  stringifyJson : JsonVal → String

/-- Default model constant in statuses/running.ts. -/
def DEFAULT_MODEL : String := "gpt-4.1"

/-- The model-call payload `running` hands to the provider: the agent
model defaulted through `agent.model || options.defaultModel || DEFAULT_MODEL`,
the system prompt prepended to the history, and the registry snapshot. -/
def runningCallParams (agent : CloudAgent) (history : List HistoryItem)
    (options : ControllerOptions) (rulebookData : List String) : LLMCallParams :=
  let systemMessage : HistoryItem :=
    { type := "message", role := some "system",
      content := some (options.buildSystemPrompt agent rulebookData) }
  { projectId := agent.projectId
    model := jsStrOr agent.model (jsOptStrOr options.defaultModel DEFAULT_MODEL)
    history := systemMessage :: history
    tools := ToolRegistry.getAvailable options.toolRegistry
    agentId := agent.id }

/-- The `running` status handler (src/core/engine/statuses/running.ts):
loads the rulebook, builds the system prompt, calls the model provider,
filters system messages from the returned history, and picks the next
status from the output type; every failure inside the guarded region
yields status `error` with the message. -/
def running (agent : CloudAgent) (history : List HistoryItem)
    (options : ControllerOptions) : AgentProcessResult :=
  let attempt : Except String LLMResponse := do
    let rulebookData ← match options.databaseProvider with
      | some getRulebook => getRulebook agent.projectId
      | none => Except.ok []
    options.llmCall (runningCallParams agent history options rulebookData)
  match attempt with
  | Except.error e =>
    { history := history, status := "error", error := some e }
  | Except.ok result =>
    let updatedHistory := result.history.filter (fun item => item.role != some "system")
    let contextTokens := result.usage.map (fun u => u.input_tokens + u.output_tokens)
    if result.output.type = "function_call" then
      let name := jsOptStrOr result.output.name ""
      if name ∈ options.hotlTools then
        { history := updatedHistory, status := "awaiting_human",
          contextTokens := contextTokens }
      else
        { history := updatedHistory, status := "awaiting_tool",
          contextTokens := contextTokens }
    else
      { history := updatedHistory, status := "paused", contextTokens := contextTokens }

/-- `JSON.stringify({ error: e })` for an optional error message: an
`undefined` field is dropped by `JSON.stringify`. -/
def errorPayload (e : Option String) : JsonVal :=
  match e with
  | some msg => JsonVal.obj [("error", JsonVal.str msg)]
  | none => JsonVal.obj []

/-- The `awaiting_tool` status handler
(src/core/engine/statuses/awaiting_tool.ts).  The read of the last
history entry and `JSON.parse(output.arguments || \'{}\')` happen BEFORE
the try block, so their exceptions propagate to the caller
(`Except.error`); only the guarded registry invocation converts a thrown
error into a `function_call_output` entry with status `failed` and agent
status `error`. -/
def awaiting_tool (agent : CloudAgent) (history : List HistoryItem)
    (options : ControllerOptions) : Except String AgentProcessResult :=
  match history.getLast? with
  | none =>
    Except.error "TypeError: Cannot read properties of undefined (reading arguments)"
  | some output => do
    let args ← options.parseJson (jsOptStrOr output.arguments "{}")
    let name := jsOptStrOr output.name ""
    let callId := jsOptStrOr output.call_id ""
    let ctxAgent : ExecContextAgent :=
      { id := agent.id, projectId := agent.projectId, model := agent.model }
    match ToolRegistry.execute options.toolRegistry name args { agent := some ctxAgent } with
    | Except.error e =>
      let failedEntry : HistoryItem :=
        { type := "function_call_output", call_id := some callId,
          output := some (options.stringifyJson (errorPayload (some e))),
          status := some "failed" }
      Except.ok { history := history ++ [failedEntry], status := "error" }
    | Except.ok result =>
      if !result.success || strTruthy result.error then
        let errorEntry : HistoryItem :=
          { type := "function_call_output", call_id := some callId,
            output := some (options.stringifyJson (errorPayload result.error)),
            status := some "completed" }
        Except.ok { history := history ++ [errorEntry], status := "running" }
      else
        let outputData : JsonVal :=
          match options.parseJson result.output with
          | Except.ok parsed => parsed
          | Except.error _ => JsonVal.str result.output
        let outputEntry : HistoryItem :=
          { type := "function_call_output", call_id := some callId,
            output := some (options.stringifyJson outputData),
            status := some "completed" }
        Except.ok { history := history ++ [outputEntry], status := "running" }

/-- One entry counts toward the consecutive-assistant-message guard when
it is a `message` whose role is not `user`. -/
def isAssistantMessage (msg : HistoryItem) : Bool :=
  msg.type == "message" && msg.role != some "user"

/-- JS `history.slice(-n)`: the last `n` entries (all of them when
`n` is zero or exceeds the length). -/
def sliceLast (l : List HistoryItem) (n : Nat) : List HistoryItem :=
  if n = 0 then l else l.drop (l.length - n)

/-- The consecutive-assistant-message pause guard of
`processAgentController`: the last entry is a non-user message and the
last `threshold` entries exist and are all non-user messages. -/
def pauseGuard (history : List HistoryItem) (threshold : Nat) : Bool :=
  match history.getLast? with
  | none => false
  | some lastMessage =>
    if lastMessage.type == "message" && lastMessage.role != some "user" then
      let lastNMessages := sliceLast history threshold
      (lastNMessages.length == threshold) && lastNMessages.all isAssistantMessage
    else
      false

/-- `processAgentController` from src/core/engine/agentController.ts: the
single-step transition function.  `Except.ok none` is the `false` return
(not processed); a `null` agent is `none`; the pause guard runs before
the status dispatch; only `running` and `awaiting_tool` are dispatched,
every other status falls through to `false`. -/
def processAgentController (agent : Option CloudAgent)
    (options : ControllerOptions) : Except String (Option AgentProcessResult) :=
  match agent with
  | none => Except.ok none
  | some agent =>
    let history := agent.history
    if strTruthy agent.status ∧ agent.status.getD "" ∈ ["paused", "awaiting_human"] then
      Except.ok none
    else
      let MESSAGE_PAUSE_THRESHOLD := jsNumOr options.messagePauseThreshold 4
      if pauseGuard history MESSAGE_PAUSE_THRESHOLD then
        Except.ok (some { history := history, status := "paused" })
      else if agent.status = some "running" then
        Except.ok (some (running agent history options))
      else if agent.status = some "awaiting_tool" then
        (awaiting_tool agent history options).map some
      else
        Except.ok none

/-! ## Concrete instances used by witnesses and counterexamples -/

/-- A registered tool whose executor always throws. -/
def failingTool : ToolDefinition :=
  { name := "demo", executor := fun _ _ => Except.error "boom" }

/-- A registry holding only `failingTool`. -/
def failingToolReg : ToolRegistry := [("demo", failingTool)]

/-- A tool with an always-succeeding executor. -/
def spareTool : ToolDefinition :=
  { name := "spare", executor := fun _ _ => Except.ok { success := true, output := "{}" } }

/-- A job that has run 3 times against a present-but-zero cap. -/
def zeroCapJob : Automation :=
  { name := "Zero cap", projectId := "project-123", frequency := "daily",
    enabled := true, prompt := "test prompt", startDate := 0,
    executions := some 3, maxExecutions := some 0 }

/-- A job with no recorded executions and a finite cap. -/
def freshJob : Automation :=
  { name := "Fresh", projectId := "project-123", frequency := "daily",
    enabled := true, prompt := "test prompt", startDate := 0,
    executions := none, maxExecutions := some 5 }

/-- A one-shot job whose `lastRun` is set but whose start date is ahead. -/
def onceNotReadyJob : Automation :=
  { name := "Once early", projectId := "project-123", frequency := "once",
    enabled := true, prompt := "test prompt", lastRun := some 5, startDate := 100 }

/-- A one-shot job whose `lastRun` is set and whose start date has passed. -/
def onceRanJob : Automation :=
  { name := "Once ran", projectId := "project-123", frequency := "once",
    enabled := true, prompt := "test prompt", lastRun := some 5, startDate := 0 }

/-- A recurring job one execution below its cap. -/
def boundaryJob : Automation :=
  { name := "Boundary", projectId := "project-123", frequency := "daily",
    enabled := true, prompt := "test prompt", startDate := 0,
    executions := some 0, maxExecutions := some 1 }

/-- A one-shot job that has never run. -/
def onceFreshJob : Automation :=
  { name := "Once fresh", projectId := "project-123", frequency := "once",
    enabled := true, prompt := "test prompt", startDate := 0 }

/-- An otherwise-eligible recurring job on a small-class model. -/
def smallModelJob : Automation :=
  { name := "Small", projectId := "project-123", model := some "gpt-5-mini",
    frequency := "daily", enabled := true, prompt := "test prompt", startDate := 0 }

/-- A scheduler configuration with no context and no advertised tools. -/
def emptyToolsCfg : ExecutorConfig :=
  { buildContext := fun _ => [], availableTools := [] }

/-- The update the boundary counterexample tick stages. -/
def boundaryUpd : AutomationUpdate :=
  { executions := 1, enabled := true,
    lastRun := 1000000000000, updatedAt := 1000000000000 }

/-- The update the one-shot witness tick stages. -/
def onceFreshUpd : AutomationUpdate :=
  { executions := 1, enabled := false,
    lastRun := 1000000000000, updatedAt := 1000000000000 }

/-- A plain assistant message history entry. -/
def assistantMsg : HistoryItem :=
  { type := "message", role := some "assistant", content := some "Response" }

/-- A plain user message history entry. -/
def userMsg : HistoryItem :=
  { type := "message", role := some "user", content := some "Hello" }

/-- Controller options whose model provider always fails and whose JSON
parser accepts exactly the empty object text. -/
def stubOptions : ControllerOptions :=
  { llmCall := fun _ => Except.error "no model provider"
    parseJson := fun s =>
      if s == "{}" then Except.ok (JsonVal.obj [])
      else Except.error "Unexpected token o in JSON at position 0"
    stringifyJson := fun _ => "{}" }

/-- An `error`-status agent whose last four entries are assistant messages. -/
def errorLoopAgent : CloudAgent :=
  { projectId := "project-1", model := "gpt-4.1", status := some "error",
    history := [assistantMsg, assistantMsg, assistantMsg, assistantMsg] }

/-- An `error`-status agent with a short, user-ended history. -/
def errorIdleAgent : CloudAgent :=
  { projectId := "project-1", model := "gpt-4.1", status := some "error",
    history := [userMsg] }

/-- A tool-call request entry whose serialized arguments are not JSON. -/
def malformedCallEntry : HistoryItem :=
  { type := "function_call", name := some "TestTool",
    arguments := some "not json", call_id := some "call-1" }

/-- An `awaiting_tool` agent whose last entry is `malformedCallEntry`. -/
def malformedArgsAgent : CloudAgent :=
  { projectId := "project-1", model := "gpt-4.1", status := some "awaiting_tool",
    history := [userMsg, malformedCallEntry] }

/-- A second malformed tool-call request entry. -/
def malformedCallEntry2 : HistoryItem :=
  { type := "function_call", name := some "T2",
    arguments := some "oops", call_id := some "c2" }

/-- An `awaiting_tool` agent whose only entry is `malformedCallEntry2`. -/
def malformedArgsAgent2 : CloudAgent :=
  { projectId := "project-1", model := "gpt-4.1", status := some "awaiting_tool",
    history := [malformedCallEntry2] }

/-- The tool-call request the stub model provider returns. -/
def hotlRequestEntry : HistoryItem :=
  { type := "function_call", name := some "HOTLTool",
    arguments := some "{}", call_id := some "call-123" }

/-- The model output part of `hotlResponse`. -/
def hotlOutput : LLMOutput :=
  { type := "function_call", name := some "HOTLTool",
    arguments := some "{}", call_id := some "call-123" }

/-- A model response carrying a tool call for `HOTLTool`. -/
def hotlResponse : LLMResponse :=
  { output := hotlOutput
    history := [userMsg, hotlRequestEntry]
    usage := some { input_tokens := 100, output_tokens := 50 } }

/-- Controller options whose model provider always returns `hotlResponse`
and whose HOTL set contains `HOTLTool`. -/
def hotlOptions : ControllerOptions :=
  { llmCall := fun _ => Except.ok hotlResponse
    hotlTools := ["HOTLTool"]
    parseJson := fun _ => Except.ok (JsonVal.obj [])
    stringifyJson := fun _ => "{}" }

/-- A `running` agent with a single user message. -/
def hotlAgent : CloudAgent :=
  { projectId := "project-1", model := "gpt-4.1", status := some "running",
    history := [userMsg] }

/-- The skip condition as the specification words it:
`(job.executions ?? 0) >= (job.maxExecutions ?? Infinity)`, where `??`
defaults only an absent field, so a present `0` cap is a finite cap. -/
def specMaxExecutionsSkip (automation : Automation) : Bool :=
  match automation.maxExecutions with
  | none => false
  | some m => decide (m <= automation.executions.getD 0)

/-! ## Theorems -/

/-- `hasReachedMaxExecutions` holds exactly for a present, nonzero cap at
most the recorded execution count. -/
lemma hasReachedMaxExecutions_iff (a : Automation) :
    hasReachedMaxExecutions a = true ↔
      ∃ m, a.maxExecutions = some m ∧ m ≠ 0 ∧ m ≤ a.executions.getD 0 := by
  unfold hasReachedMaxExecutions jsOrInfinity
  cases hmax : a.maxExecutions with
  | none => simp
  | some m =>
    by_cases hz : m = 0
    · subst hz; simp
    · by_cases hle : m ≤ a.executions.getD 0 <;> simp [hz, hle]

/-- The max-executions checker skips exactly on `hasReachedMaxExecutions`. -/
lemma checkMaxExecutions_shouldSkip (a : Automation) (id : String) :
    (checkMaxExecutions a id).shouldSkip = hasReachedMaxExecutions a := by
  unfold checkMaxExecutions
  split <;> simp_all

/-- After `unregister name` the name is absent. -/
lemma has_unregister_self (reg : ToolRegistry) (name : String) :
    ToolRegistry.has (ToolRegistry.unregister reg name) name = false := by
  induction reg with
  | nil => rfl
  | cons hd tl ih =>
    unfold ToolRegistry.unregister ToolRegistry.has at ih ⊢
    rw [List.filter_cons]
    by_cases hh : (hd.1 != name) = true
    · rw [if_pos hh]
      rw [List.any_cons]
      have hbe : (hd.1 == name) = false := by
        cases hq : (hd.1 == name)
        · rfl
        · rw [bne, hq] at hh; exact absurd hh (by simp)
      simp [hbe, ih]
    · rw [if_neg hh]
      exact ih

/-- `unregister` of an absent name is the identity. -/
lemma unregister_absent (reg : ToolRegistry) (name : String)
    (h : ToolRegistry.has reg name = false) :
    ToolRegistry.unregister reg name = reg := by
  unfold ToolRegistry.unregister
  refine List.filter_eq_self.mpr fun p hp => ?_
  unfold ToolRegistry.has at h
  cases hq : (p.1 == name)
  · simp [bne, hq]
  · exfalso
    have : reg.any (fun q => q.1 == name) = true :=
      List.any_eq_true.mpr ⟨p, hp, hq⟩
    rw [this] at h
    exact absurd h (by simp)

/-- C5: for every registered tool whose executor throws, `execute` does
not raise but returns `ToolResult` with `success := false` and `error`
set to the thrown message; a successful executor result is passed
through unchanged. -/
theorem execute_guards_executor (reg : ToolRegistry) (name : String)
    (tool : ToolDefinition) (args : JsonVal) (context : ExecutionContext)
    (hfound : ToolRegistry.getTool reg name = some tool) :
    (∀ e, tool.executor args context = Except.error e →
      ToolRegistry.execute reg name args context =
        Except.ok { success := false, output := "", error := some e }) ∧
    (∀ r, tool.executor args context = Except.ok r →
      ToolRegistry.execute reg name args context = Except.ok r) := by
  constructor
  · intro e he
    simp [ToolRegistry.execute, hfound, he]
  · intro r hr
    simp [ToolRegistry.execute, hfound, hr]

/-- Witness for C5: the always-throwing `failingTool` yields the
structured failure result. -/
theorem execute_guards_executor_witness :
    ToolRegistry.execute failingToolReg "demo" (JsonVal.obj []) {} =
      Except.ok { success := false, output := "", error := some "boom" } :=
  (execute_guards_executor failingToolReg "demo" failingTool (JsonVal.obj []) {}
    rfl).1 "boom" rfl

/-- C9: registering a present name fails with the duplicate error (the
registry value is untouched); after `unregister name`, `has name` is
false; registering an absent name succeeds and makes `has` true;
`unregister` of an absent name is the identity. -/
theorem register_unregister_has (reg : ToolRegistry) (tool : ToolDefinition)
    (name : String) :
    (ToolRegistry.has reg tool.name = true →
      ToolRegistry.register reg tool =
        Except.error ("Tool \"" ++ tool.name ++ "\" is already registered")) ∧
    (ToolRegistry.has (ToolRegistry.unregister reg name) name = false) ∧
    (ToolRegistry.has reg tool.name = false →
      ToolRegistry.register reg tool = Except.ok (reg ++ [(tool.name, tool)]) ∧
      ToolRegistry.has (reg ++ [(tool.name, tool)]) tool.name = true) ∧
    (ToolRegistry.has reg name = false → ToolRegistry.unregister reg name = reg) := by
  refine ⟨fun h => ?_, has_unregister_self reg name, fun h => ⟨?_, ?_⟩,
    unregister_absent reg name⟩
  · simp [ToolRegistry.register, h]
  · simp [ToolRegistry.register, h]
  · simp [ToolRegistry.has, List.any_eq_true]

/-- Witness for C9: registering `spareTool` into the registry left by
unregistering it from the previously emptied registry succeeds. -/
theorem register_unregister_has_witness :
    (ToolRegistry.has (ToolRegistry.unregister failingToolReg "demo") "demo" = false) ∧
    ToolRegistry.register ToolRegistry.empty spareTool =
      Except.ok (ToolRegistry.empty ++ [(spareTool.name, spareTool)]) :=
  ⟨(register_unregister_has failingToolReg spareTool "demo").2.1,
   ((register_unregister_has ToolRegistry.empty spareTool "demo").2.2.1 rfl).1⟩

/-- C7 (amended): the max-executions check skips exactly when a present,
nonzero cap is at most the recorded execution count (JS `||` also treats
a present `0` cap as unbounded); a job with no recorded executions is
never skipped by this check. -/
theorem checkMaxExecutions_characterization (automation : Automation)
    (automationId : String) :
    ((checkMaxExecutions automation automationId).shouldSkip = true ↔
      ∃ m, automation.maxExecutions = some m ∧ m ≠ 0 ∧
        m ≤ automation.executions.getD 0) ∧
    (automation.executions = none →
      (checkMaxExecutions automation automationId).shouldSkip = false) := by
  constructor
  · rw [checkMaxExecutions_shouldSkip]
    exact hasReachedMaxExecutions_iff automation
  · intro hex
    rw [checkMaxExecutions_shouldSkip]
    rw [Bool.eq_false_iff]
    intro hr
    rcases (hasReachedMaxExecutions_iff automation).mp hr with ⟨m, _, hz, hle⟩
    rw [hex] at hle
    simp at hle
    exact hz hle

/-- Witness for C7: a fresh job with cap 5 is not skipped. -/
theorem checkMaxExecutions_characterization_witness :
    (checkMaxExecutions freshJob "auto-7w").shouldSkip = false :=
  (checkMaxExecutions_characterization freshJob "auto-7w").2 rfl

/-- Counterexample for C7 as stated: a job with 3 recorded executions and
a present cap of 0 satisfies the spec formula
`(executions ?? 0) >= (maxExecutions ?? Infinity)` but the code does not
skip it, because `0 || Infinity` is `Infinity`. -/
theorem checkMaxExecutions_zero_cap_cex :
    specMaxExecutionsSkip zeroCapJob = true ∧
    (checkMaxExecutions zeroCapJob "auto-7").shouldSkip = false := by
  constructor
  · rfl
  · rfl

/-- C10: the consecutive-assistant-message pause guard fires only when the
history holds at least `threshold` entries whose last `threshold` entries
are all non-user message entries; in particular a history shorter than
the threshold never triggers it. -/
theorem pauseGuard_characterization (history : List HistoryItem) (threshold : Nat) :
    (history.length < threshold → pauseGuard history threshold = false) ∧
    (pauseGuard history threshold = true →
      threshold ≤ history.length ∧
      (sliceLast history threshold).all isAssistantMessage = true) := by
  constructor
  · intro hlt
    unfold pauseGuard
    cases hl : history.getLast? with
    | none => rfl
    | some lastMessage =>
      simp only
      by_cases hc : (lastMessage.type == "message" && lastMessage.role != some "user") = true
      · rw [if_pos hc]
        have hlen : (sliceLast history threshold).length ≠ threshold := by
          unfold sliceLast
          split
          · omega
          · simp only [List.length_drop]
            omega
        simp [hlen]
      · rw [if_neg hc]
  · intro hg
    unfold pauseGuard at hg
    cases hl : history.getLast? with
    | none => rw [hl] at hg; exact absurd hg (by simp)
    | some lastMessage =>
      rw [hl] at hg
      simp only at hg
      by_cases hc : (lastMessage.type == "message" && lastMessage.role != some "user") = true
      · rw [if_pos hc] at hg
        have hne : history ≠ [] := by
          intro h0
          rw [h0] at hl
          exact absurd hl (by simp)
        have hlen : (sliceLast history threshold).length = threshold := by
          have := (Bool.and_eq_true _ _).mp hg
          simpa using this.1
        have hall := (Bool.and_eq_true _ _).mp hg
        refine ⟨?_, hall.2⟩
        by_cases hz : threshold = 0
        · subst hz
          have : (sliceLast history 0).length = 0 := hlen
          unfold sliceLast at this
          simp at this
          exact absurd this hne
        · unfold sliceLast at hlen
          rw [if_neg hz] at hlen
          simp only [List.length_drop] at hlen
          omega
      · rw [if_neg hc] at hg
        exact absurd hg (by simp)

/-- Witness for C10: a two-entry all-assistant history does not trip the
default threshold of 4. -/
theorem pauseGuard_characterization_witness :
    pauseGuard [assistantMsg, assistantMsg] 4 = false :=
  (pauseGuard_characterization [assistantMsg, assistantMsg] 4).1 (by decide)


/-- A chain whose checks all fail to skip yields the non-skip result. -/
lemma checkShouldSkipAutomation_no_skip (a : Automation) (id : String) (now : Int)
    (c : AgentsCreatedByModelType)
    (h1 : (checkNotReady a id now).shouldSkip = false)
    (h2 : (checkRunRecently a id now).shouldSkip = false)
    (h3 : (checkMaxExecutions a id).shouldSkip = false)
    (h4 : (checkAlreadyRun a id).shouldSkip = false)
    (h5 : (checkRateLimited a id c).shouldSkip = false) :
    checkShouldSkipAutomation a id now c = { shouldSkip := false } := by
  unfold checkShouldSkipAutomation
  simp [h1, h2, h3, h4, h5]

/-- A chain whose first four checks pass and whose rate check skips yields
the rate check result. -/
lemma checkShouldSkipAutomation_rate_limited (a : Automation) (id : String) (now : Int)
    (c : AgentsCreatedByModelType)
    (h1 : (checkNotReady a id now).shouldSkip = false)
    (h2 : (checkRunRecently a id now).shouldSkip = false)
    (h3 : (checkMaxExecutions a id).shouldSkip = false)
    (h4 : (checkAlreadyRun a id).shouldSkip = false)
    (h5 : (checkRateLimited a id c).shouldSkip = true) :
    checkShouldSkipAutomation a id now c = checkRateLimited a id c := by
  unfold checkShouldSkipAutomation
  simp [h1, h2, h3, h4, h5]

/-- A chain result that does not skip means every check declined to skip. -/
lemma checks_false_of_chain_false (a : Automation) (id : String) (now : Int)
    (c : AgentsCreatedByModelType)
    (h : (checkShouldSkipAutomation a id now c).shouldSkip = false) :
    (checkNotReady a id now).shouldSkip = false ∧
    (checkRunRecently a id now).shouldSkip = false ∧
    (checkMaxExecutions a id).shouldSkip = false ∧
    (checkAlreadyRun a id).shouldSkip = false ∧
    (checkRateLimited a id c).shouldSkip = false := by
  by_cases h1 : (checkNotReady a id now).shouldSkip = true
  · simp [checkShouldSkipAutomation, h1] at h
  · rw [Bool.not_eq_true] at h1
    by_cases h2 : (checkRunRecently a id now).shouldSkip = true
    · simp [checkShouldSkipAutomation, h1, h2] at h
    · rw [Bool.not_eq_true] at h2
      by_cases h3 : (checkMaxExecutions a id).shouldSkip = true
      · simp [checkShouldSkipAutomation, h1, h2, h3] at h
      · rw [Bool.not_eq_true] at h3
        by_cases h4 : (checkAlreadyRun a id).shouldSkip = true
        · simp [checkShouldSkipAutomation, h1, h2, h3, h4] at h
        · rw [Bool.not_eq_true] at h4
          by_cases h5 : (checkRateLimited a id c).shouldSkip = true
          · simp [checkShouldSkipAutomation, h1, h2, h3, h4, h5] at h
          · rw [Bool.not_eq_true] at h5
            exact ⟨h1, h2, h3, h4, h5⟩

/-- C2 (amended): once `lastRun` is set on a one-shot job, every pipeline
evaluation skips; the reported reason is `already_run` whenever the start
date has passed and the max-executions check does not fire first. -/
theorem once_with_lastRun_always_skips (automation : Automation)
    (automationId : String) (now : Int) (counter : AgentsCreatedByModelType)
    (hfreq : automation.frequency = "once")
    (hlast : intTruthy automation.lastRun = true) :
    ((checkShouldSkipAutomation automation automationId now counter).shouldSkip = true) ∧
    ((checkNotReady automation automationId now).shouldSkip = false →
      (checkMaxExecutions automation automationId).shouldSkip = false →
      (checkShouldSkipAutomation automation automationId now counter).reasonType =
        some SkipReasonType.already_run) := by
  have h2 : (checkRunRecently automation automationId now).shouldSkip = false := by
    unfold checkRunRecently
    rw [if_neg (by simp [hfreq])]
  have h4 : checkAlreadyRun automation automationId =
      { shouldSkip := true
        reason := some ("Automation " ++ automation.name ++ " (" ++ automationId ++
          ") has already run, skipping")
        reasonType := some SkipReasonType.already_run } := by
    unfold checkAlreadyRun
    rw [if_pos ⟨hfreq, hlast⟩]
  constructor
  · unfold checkShouldSkipAutomation
    by_cases h1 : (checkNotReady automation automationId now).shouldSkip = true
    · simp [h1]
    · rw [Bool.not_eq_true] at h1
      by_cases h3 : (checkMaxExecutions automation automationId).shouldSkip = true
      · simp [h1, h2, h3]
      · rw [Bool.not_eq_true] at h3
        simp [h1, h2, h3, h4]
  · intro h1 h3
    unfold checkShouldSkipAutomation
    simp [h1, h2, h3, h4]

/-- Witness for C2: a ran one-shot job past its start date is skipped with
reason `already_run`. -/
theorem once_with_lastRun_always_skips_witness :
    ((checkShouldSkipAutomation onceRanJob "auto-2w" 50 {}).shouldSkip = true) ∧
    ((checkShouldSkipAutomation onceRanJob "auto-2w" 50 {}).reasonType =
      some SkipReasonType.already_run) :=
  ⟨(once_with_lastRun_always_skips onceRanJob "auto-2w" 50 {} rfl (by decide)).1,
   (once_with_lastRun_always_skips onceRanJob "auto-2w" 50 {} rfl
      (by decide)).2 (by decide) (by decide)⟩

/-- Counterexample for C2 as stated: a ran one-shot job evaluated before
its start date is skipped with reason `not_ready`, not `already_run`. -/
theorem once_with_lastRun_not_ready_cex :
    onceNotReadyJob.frequency = "once" ∧
    intTruthy onceNotReadyJob.lastRun = true ∧
    (checkShouldSkipAutomation onceNotReadyJob "auto-2" 0 {}).reasonType =
      some SkipReasonType.not_ready := by
  refine ⟨rfl, by decide, ?_⟩
  rfl

/-- C3 (amended): when the last entry of an `awaiting_tool` record carries
arguments the JSON parser rejects, the controller raises the parse error
to its caller instead of returning a result; the record is not moved to
`error` by this path. -/
theorem awaiting_tool_parse_failure_raises (agent : CloudAgent)
    (options : ControllerOptions) (entry : HistoryItem) (e : String)
    (hstatus : agent.status = some "awaiting_tool")
    (hguard : pauseGuard agent.history (jsNumOr options.messagePauseThreshold 4) = false)
    (hlast : agent.history.getLast? = some entry)
    (hparse : options.parseJson (jsOptStrOr entry.arguments "{}") = Except.error e) :
    processAgentController (some agent) options = Except.error e := by
  simp [processAgentController, hstatus, hguard, awaiting_tool, hlast, hparse]
  rfl

/-- Witness for C3 (amended): the one-entry malformed-arguments agent
raises the stub parse error. -/
theorem awaiting_tool_parse_failure_raises_witness :
    processAgentController (some malformedArgsAgent2) stubOptions =
      Except.error "Unexpected token o in JSON at position 0" :=
  awaiting_tool_parse_failure_raises malformedArgsAgent2 stubOptions
    malformedCallEntry2 "Unexpected token o in JSON at position 0"
    rfl (by decide) rfl rfl

/-- Counterexample for C3 as stated: on malformed serialized arguments the
controller raises the parse error to its caller; it does not return a
result carrying status `error`. -/
theorem awaiting_tool_malformed_args_cex :
    processAgentController (some malformedArgsAgent) stubOptions =
      Except.error "Unexpected token o in JSON at position 0" := by
  rfl

/-- C4 (amended): a single controller invocation of an `error`-status
record signals not-processed and leaves the record untouched whenever the
consecutive-assistant-message guard does not fire; when the guard fires,
the record is instead returned with status `paused` and unchanged
history. -/
theorem error_status_not_processed (agent : CloudAgent)
    (options : ControllerOptions) (hstatus : agent.status = some "error") :
    (pauseGuard agent.history (jsNumOr options.messagePauseThreshold 4) = false →
      processAgentController (some agent) options = Except.ok none) ∧
    (pauseGuard agent.history (jsNumOr options.messagePauseThreshold 4) = true →
      processAgentController (some agent) options =
        Except.ok (some { history := agent.history, status := "paused" })) := by
  constructor
  · intro hguard
    simp [processAgentController, hstatus, hguard]
  · intro hguard
    simp [processAgentController, hstatus, hguard]

/-- Witness for C4 (amended): an `error`-status agent with a short
user-ended history is not processed. -/
theorem error_status_not_processed_witness :
    processAgentController (some errorIdleAgent) stubOptions = Except.ok none :=
  (error_status_not_processed errorIdleAgent stubOptions rfl).1 (by decide)

/-- Counterexample for C4 as stated: an `error`-status agent whose last
four entries are assistant messages is processed and moved to `paused`. -/
theorem error_status_guard_cex :
    processAgentController (some errorLoopAgent) stubOptions =
      Except.ok (some { history := errorLoopAgent.history, status := "paused" }) := by
  rfl

/-- C8: a `running` record whose model call returns a tool-call request
appending the request to the history transitions to `awaiting_human` when
the tool name is in the HOTL set, and to `awaiting_tool` otherwise, with
the request appended to the returned history in both cases. -/
theorem running_hotl_transition (agent : CloudAgent) (history : List HistoryItem)
    (options : ControllerOptions) (r : LLMResponse) (request : HistoryItem)
    (hdb : options.databaseProvider = none)
    (hcall : options.llmCall (runningCallParams agent history options []) =
      Except.ok r)
    (htype : r.output.type = "function_call")
    (hhist : r.history = history ++ [request])
    (hnosys : ∀ item ∈ history, item.role ≠ some "system")
    (hreq : request.role ≠ some "system") :
    (jsOptStrOr r.output.name "" ∈ options.hotlTools →
      running agent history options =
        { history := history ++ [request], status := "awaiting_human",
          contextTokens := r.usage.map (fun u => u.input_tokens + u.output_tokens) }) ∧
    (jsOptStrOr r.output.name "" ∉ options.hotlTools →
      running agent history options =
        { history := history ++ [request], status := "awaiting_tool",
          contextTokens := r.usage.map (fun u => u.input_tokens + u.output_tokens) }) := by
  have hfilter : r.history.filter (fun item => item.role != some "system") =
      history ++ [request] := by
    rw [hhist]
    refine List.filter_eq_self.mpr fun item hitem => ?_
    rcases List.mem_append.mp hitem with hmem | hmem
    · simpa using hnosys item hmem
    · have : item = request := by simpa using hmem
      subst this
      simpa using hreq
  constructor
  · intro hname
    simp [running, hdb, bind, Except.bind, hcall, htype, hname, hfilter]
  · intro hname
    simp [running, hdb, bind, Except.bind, hcall, htype, hname, hfilter]

/-- Witness for C8: a running agent whose stub provider requests
`HOTLTool`, which is in the HOTL set, moves to `awaiting_human`. -/
theorem running_hotl_transition_witness :
    running hotlAgent [userMsg] hotlOptions =
      { history := [userMsg] ++ [hotlRequestEntry], status := "awaiting_human",
        contextTokens := hotlResponse.usage.map
          (fun u => u.input_tokens + u.output_tokens) } :=
  (running_hotl_transition hotlAgent [userMsg] hotlOptions hotlResponse
    hotlRequestEntry rfl rfl rfl rfl (by decide) (by decide)).1 (by decide)

/-- Every staged job update of a tick fold comes from a loaded document
that passed the skip pipeline against some counter value, and equals the
staged bookkeeping update for that document. -/
lemma tick_updates_mem (cfg : ExecutorConfig) (now : Int) :
    ∀ (docs : List (String × Automation)) (st : TickState)
      (p : String × AutomationUpdate),
      p ∈ (docs.foldl (tickStep cfg now) st).updates →
      p ∈ st.updates ∨
        ∃ a counter, (p.1, a) ∈ docs ∧
          (checkShouldSkipAutomation a p.1 now counter).shouldSkip = false ∧
          p.2 = automationUpdate a now := by
  intro docs
  induction docs with
  | nil =>
    intro st p hp
    exact Or.inl hp
  | cons d rest ih =>
    intro st p hp
    rw [List.foldl_cons] at hp
    rcases ih (tickStep cfg now st d) p hp with hmem | ⟨a, counter, hdoc, hskip, hupd⟩
    · by_cases hs :
        (checkShouldSkipAutomation d.2 d.1 now st.agentsCreatedByModelType).shouldSkip = true
      · rw [show tickStep cfg now st d =
            { st with skips := st.skips ++
                [(d.1, checkShouldSkipAutomation d.2 d.1 now st.agentsCreatedByModelType)] }
            from by unfold tickStep; rw [if_pos hs]] at hmem
        exact Or.inl hmem
      · rw [Bool.not_eq_true] at hs
        unfold tickStep at hmem
        rw [if_neg (by simp [hs])] at hmem
        simp only at hmem
        rcases List.mem_append.mp hmem with hmem | hmem
        · exact Or.inl hmem
        · have hp2 : p = (d.1, automationUpdate d.2 now) := by simpa using hmem
          subst hp2
          exact Or.inr ⟨d.2, st.agentsCreatedByModelType,
            List.mem_cons_self d rest, hs, rfl⟩
    · exact Or.inr ⟨a, counter, List.mem_cons_of_mem d hdoc, hskip, hupd⟩

/-- C1 (amended): for every job a tick stages an update for (that is,
creates an agent for), the staged update increments `executions` by
exactly 1 and recomputes `enabled` as false exactly when the frequency is
`once` — the cap comparison uses the pre-increment count, which is below
`maxExecutions` for any job that passed the max-executions check. -/
theorem scheduler_update_bookkeeping (cfg : ExecutorConfig)
    (docs : List (String × Automation)) (now : Int) (p : String × AutomationUpdate)
    (hp : p ∈ (runAutomationTick cfg docs now).updates) :
    ∃ a : Automation, (p.1, a) ∈ docs ∧
      p.2.executions = a.executions.getD 0 + 1 ∧
      (p.2.enabled = false ↔ a.frequency = "once") := by
  rcases tick_updates_mem cfg now docs {} p hp with hmem | ⟨a, counter, hdoc, hskip, hupd⟩
  · exact absurd hmem (by simp)
  · refine ⟨a, hdoc, ?_, ?_⟩
    · rw [hupd]
      rfl
    · have hmax : hasReachedMaxExecutions a = false := by
        have h3 := (checks_false_of_chain_false a p.1 now counter hskip).2.2.1
        rw [checkMaxExecutions_shouldSkip] at h3
        exact h3
      rw [hupd]
      show shouldKeepAutomationEnabled a = false ↔ a.frequency = "once"
      unfold shouldKeepAutomationEnabled
      unfold hasReachedMaxExecutions at hmax
      cases hinf : jsOrInfinity a.maxExecutions with
      | none =>
        simp [hinf]
      | some m =>
        rw [hinf] at hmax
        simp only [decide_eq_false_iff_not, Nat.not_le] at hmax
        simp [hinf, hmax]



/-- Witness for C1 (amended): a never-run one-shot job is staged with
`executions = 1` and `enabled = false`. -/
theorem scheduler_update_bookkeeping_witness :
    ("w1", onceFreshUpd) ∈
      (runAutomationTick emptyToolsCfg [("w1", onceFreshJob)]
        1000000000000).updates ∧
    onceFreshUpd.executions = onceFreshJob.executions.getD 0 + 1 ∧
    (onceFreshUpd.enabled = false ↔ onceFreshJob.frequency = "once") := by
  have h := scheduler_update_bookkeeping emptyToolsCfg [("w1", onceFreshJob)]
    1000000000000 ("w1", onceFreshUpd) (by decide)
  rcases h with ⟨a, ha, h1, h2⟩
  have haj : a = onceFreshJob := by simpa using ha
  subst haj
  exact ⟨by decide, h1, h2⟩

/-- Counterexample for C1 as stated: a daily job with `executions = 0` and
`maxExecutions = 1` is staged with `executions = 1`, which meets the cap,
yet `enabled` stays `true` because the code compares the pre-increment
count. -/
theorem scheduler_enabled_boundary_cex :
    (runAutomationTick emptyToolsCfg [("auto-1", boundaryJob)]
        1000000000000).updates = [("auto-1", boundaryUpd)] ∧
    boundaryJob.maxExecutions = some 1 ∧
    boundaryUpd.executions = 1 ∧
    boundaryUpd.enabled = true ∧
    boundaryJob.frequency ≠ "once" := by
  refine ⟨by decide, rfl, rfl, rfl, by decide⟩

/-- Field equations of a non-skipping tick step. -/
lemma tickStep_no_skip_fields (cfg : ExecutorConfig) (now : Int) (st : TickState)
    (d : String × Automation)
    (hs : (checkShouldSkipAutomation d.2 d.1 now st.agentsCreatedByModelType).shouldSkip
      = false) :
    (tickStep cfg now st d).creations.map AgentData.automationId =
      st.creations.map AgentData.automationId ++ [d.1] ∧
    (tickStep cfg now st d).skips = st.skips ∧
    (tickStep cfg now st d).agentsCreated = st.agentsCreated + 1 ∧
    (tickStep cfg now st d).agentsCreatedByModelType =
      st.agentsCreatedByModelType.incrFor
        (getModelType (some (jsOptStrOr d.2.model cfg.defaultModel))) := by
  unfold tickStep
  rw [if_neg (by simp [hs])]
  simp

/-- Field equations of a skipping tick step. -/
lemma tickStep_skip_fields (cfg : ExecutorConfig) (now : Int) (st : TickState)
    (d : String × Automation)
    (hs : (checkShouldSkipAutomation d.2 d.1 now st.agentsCreatedByModelType).shouldSkip
      = true) :
    (tickStep cfg now st d).creations = st.creations ∧
    (tickStep cfg now st d).skips = st.skips ++
      [(d.1, checkShouldSkipAutomation d.2 d.1 now st.agentsCreatedByModelType)] ∧
    (tickStep cfg now st d).agentsCreated = st.agentsCreated ∧
    (tickStep cfg now st d).agentsCreatedByModelType = st.agentsCreatedByModelType := by
  unfold tickStep
  rw [if_pos hs]
  simp

/-- A small-model job is not rate limited while the small counter is
below the cap of 2. -/
lemma rateLimited_small_below (a : Automation) (id : String)
    (c : AgentsCreatedByModelType) (hm : a.model = some "gpt-5-mini")
    (hc : c.small < 2) :
    (checkRateLimited a id c).shouldSkip = false := by
  have hmt : getModelType (some (jsOptStrOr (some "gpt-5-mini") "gpt-5.2")) =
      ModelType.small := rfl
  have hmax : getMaxAgentsForModel (some (jsOptStrOr (some "gpt-5-mini") "gpt-5.2")) =
      2 := rfl
  simp only [checkRateLimited, hm, hmt, hmax]
  rw [if_neg (Nat.not_le.mpr (show c.countFor ModelType.small < 2 from hc))]

/-- A small-model job is rate limited once the small counter reaches 2,
with reason kind `rate_limited`. -/
lemma rateLimited_small_reached (a : Automation) (id : String)
    (c : AgentsCreatedByModelType) (hm : a.model = some "gpt-5-mini")
    (hc : 2 ≤ c.small) :
    (checkRateLimited a id c).shouldSkip = true ∧
    (checkRateLimited a id c).reasonType = some SkipReasonType.rate_limited := by
  have hmt : getModelType (some (jsOptStrOr (some "gpt-5-mini") "gpt-5.2")) =
      ModelType.small := rfl
  have hmax : getMaxAgentsForModel (some (jsOptStrOr (some "gpt-5-mini") "gpt-5.2")) =
      2 := rfl
  simp only [checkRateLimited, hm, hmt, hmax]
  rw [if_pos (show 2 ≤ c.countFor ModelType.small from hc)]
  exact ⟨rfl, rfl⟩

/-- C6: a tick loading exactly three otherwise-eligible small-model jobs,
with the small cap fixed at 2 and the per-tick counter starting empty,
creates agents for the first two in load order, counts them in the small
class, and skips the third with reason kind `rate_limited`. -/
theorem rate_limiter_three_small_jobs (cfg : ExecutorConfig) (now : Int)
    (i1 i2 i3 : String) (a1 a2 a3 : Automation)
    (hm1 : a1.model = some "gpt-5-mini") (hm2 : a2.model = some "gpt-5-mini")
    (hm3 : a3.model = some "gpt-5-mini")
    (h1a : (checkNotReady a1 i1 now).shouldSkip = false)
    (h1b : (checkRunRecently a1 i1 now).shouldSkip = false)
    (h1c : (checkMaxExecutions a1 i1).shouldSkip = false)
    (h1d : (checkAlreadyRun a1 i1).shouldSkip = false)
    (h2a : (checkNotReady a2 i2 now).shouldSkip = false)
    (h2b : (checkRunRecently a2 i2 now).shouldSkip = false)
    (h2c : (checkMaxExecutions a2 i2).shouldSkip = false)
    (h2d : (checkAlreadyRun a2 i2).shouldSkip = false)
    (h3a : (checkNotReady a3 i3 now).shouldSkip = false)
    (h3b : (checkRunRecently a3 i3 now).shouldSkip = false)
    (h3c : (checkMaxExecutions a3 i3).shouldSkip = false)
    (h3d : (checkAlreadyRun a3 i3).shouldSkip = false) :
    (runAutomationTick cfg [(i1, a1), (i2, a2), (i3, a3)] now).creations.map
        AgentData.automationId = [i1, i2] ∧
    (runAutomationTick cfg [(i1, a1), (i2, a2), (i3, a3)] now).agentsCreated = 2 ∧
    (runAutomationTick cfg [(i1, a1), (i2, a2), (i3, a3)]
        now).agentsCreatedByModelType = { small := 2, large := 0 } ∧
    (runAutomationTick cfg [(i1, a1), (i2, a2), (i3, a3)] now).skips.map
        Prod.fst = [i3] ∧
    (∀ s ∈ (runAutomationTick cfg [(i1, a1), (i2, a2), (i3, a3)] now).skips,
      s.2.reasonType = some SkipReasonType.rate_limited) ∧
    MAX_AGENTS_SMALL_MODEL = 2 := by
  have hchain1 : (checkShouldSkipAutomation a1 i1 now
      ({} : TickState).agentsCreatedByModelType).shouldSkip = false := by
    have he := checkShouldSkipAutomation_no_skip a1 i1 now
      { small := 0, large := 0 } h1a h1b h1c h1d
      (rateLimited_small_below a1 i1 { small := 0, large := 0 } hm1 (by decide))
    show (checkShouldSkipAutomation a1 i1 now { small := 0, large := 0 }).shouldSkip
      = false
    rw [he]
  have hf1 := tickStep_no_skip_fields cfg now {} (i1, a1) hchain1
  have hcnt1 : (tickStep cfg now {} (i1, a1)).agentsCreatedByModelType =
      { small := 1, large := 0 } := by
    rw [hf1.2.2.2]
    show AgentsCreatedByModelType.incrFor { small := 0, large := 0 }
      (getModelType (some (jsOptStrOr a1.model cfg.defaultModel))) = _
    rw [hm1]
    rfl
  have hchain2 : (checkShouldSkipAutomation a2 i2 now
      (tickStep cfg now {} (i1, a1)).agentsCreatedByModelType).shouldSkip = false := by
    rw [hcnt1]
    have he := checkShouldSkipAutomation_no_skip a2 i2 now
      { small := 1, large := 0 } h2a h2b h2c h2d
      (rateLimited_small_below a2 i2 { small := 1, large := 0 } hm2 (by decide))
    rw [he]
  have hf2 := tickStep_no_skip_fields cfg now (tickStep cfg now {} (i1, a1))
    (i2, a2) hchain2
  have hcnt2 : (tickStep cfg now (tickStep cfg now {} (i1, a1))
      (i2, a2)).agentsCreatedByModelType = { small := 2, large := 0 } := by
    rw [hf2.2.2.2, hcnt1, hm2]
    rfl
  have hrate3 := rateLimited_small_reached a3 i3 { small := 2, large := 0 } hm3
    (by decide)
  have hchain3eq : checkShouldSkipAutomation a3 i3 now { small := 2, large := 0 } =
      checkRateLimited a3 i3 { small := 2, large := 0 } :=
    checkShouldSkipAutomation_rate_limited a3 i3 now { small := 2, large := 0 }
      h3a h3b h3c h3d hrate3.1
  have hchain3 : (checkShouldSkipAutomation a3 i3 now
      (tickStep cfg now (tickStep cfg now {} (i1, a1))
        (i2, a2)).agentsCreatedByModelType).shouldSkip = true := by
    rw [hcnt2, hchain3eq]
    exact hrate3.1
  have hf3 := tickStep_skip_fields cfg now
    (tickStep cfg now (tickStep cfg now {} (i1, a1)) (i2, a2)) (i3, a3) hchain3
  have hrun : runAutomationTick cfg [(i1, a1), (i2, a2), (i3, a3)] now =
      tickStep cfg now (tickStep cfg now (tickStep cfg now {} (i1, a1)) (i2, a2))
        (i3, a3) := rfl
  rw [hrun]
  refine ⟨?_, ?_, ?_, ?_, ?_, rfl⟩
  · rw [hf3.1, hf2.1, hf1.1]
    rfl
  · rw [hf3.2.2.1, hf2.2.2.1, hf1.2.2.1]
  · rw [hf3.2.2.2, hcnt2]
  · rw [hf3.2.1, hf2.2.1, hf1.2.1]
    rfl
  · intro s hs
    rw [hf3.2.1, hf2.2.1, hf1.2.1] at hs
    have hs2 : s = (i3, checkShouldSkipAutomation a3 i3 now
        (tickStep cfg now (tickStep cfg now {} (i1, a1))
          (i2, a2)).agentsCreatedByModelType) := by
      simpa using hs
    rw [hs2]
    show (checkShouldSkipAutomation a3 i3 now _).reasonType = _
    rw [hcnt2, hchain3eq]
    exact hrate3.2

/-- Witness for C6: three concrete small-model jobs at a large tick time. -/
theorem rate_limiter_three_small_jobs_witness :
    (runAutomationTick emptyToolsCfg
        [("1", smallModelJob), ("2", smallModelJob), ("3", smallModelJob)]
        1000000000000).creations.map AgentData.automationId = ["1", "2"] ∧
    (runAutomationTick emptyToolsCfg
        [("1", smallModelJob), ("2", smallModelJob), ("3", smallModelJob)]
        1000000000000).agentsCreated = 2 ∧
    (runAutomationTick emptyToolsCfg
        [("1", smallModelJob), ("2", smallModelJob), ("3", smallModelJob)]
        1000000000000).agentsCreatedByModelType = { small := 2, large := 0 } ∧
    (runAutomationTick emptyToolsCfg
        [("1", smallModelJob), ("2", smallModelJob), ("3", smallModelJob)]
        1000000000000).skips.map Prod.fst = ["3"] ∧
    MAX_AGENTS_SMALL_MODEL = 2 := by
  have h := rate_limiter_three_small_jobs emptyToolsCfg 1000000000000 "1" "2" "3"
    smallModelJob smallModelJob smallModelJob rfl rfl rfl
    (by decide) (by decide) (by decide) (by decide)
    (by decide) (by decide) (by decide) (by decide)
    (by decide) (by decide) (by decide) (by decide)
  exact ⟨h.1, h.2.1, h.2.2.1, h.2.2.2.1, h.2.2.2.2.2⟩

end Automata
